import Mathlib

/-!
Verification development for the BatterX device module
(`packages/modules/devices/batterx/device.py`).

The Python module is shallowly embedded: the mutable component dictionary
becomes an insertion-ordered association list with Python-dict replacement
semantics, methods that mutate the device become state-passing functions
that also return the exception raised (if any), and one update cycle is
embedded as the list of externally visible events it produces (context
enter, HTTP fetch, per-component `update` invocations, power extractions,
value-store publishes, context exit).  External collaborators that are not
part of the source file (the HTTP session, the component classes'
`update`/`get_power` bodies, `get_inverter_state`, and the
`MultiComponentUpdateContext`) are parameters of a `World`, respectively
modelled from the spec where noted.
-/

set_option autoImplicit false

namespace BatterXDev

/-- A decoded JSON response body (`resp_json`).  The device code treats it as
an opaque value that is handed unmodified to every component, so an opaque
token suffices. -/
abbrev Payload := Nat

/-- The Python exceptions that the embedded code can raise. -/
inductive PyError where
  | keyError (key : String)
  | exception (msg : String)
  | attributeError (name : String)
  | runtimeError (msg : String)
  deriving DecidableEq, Repr

/-- The component classes of `COMPONENT_TYPE_TO_CLASS` /
`COMPONENT_TYPE_TO_MODULE` (`bat.BatterXBat`, `counter.BatterXCounter`,
`inverter.BatterXInverter`, `external_inverter`'s class). -/
inductive ComponentType where
  | bat
  | counter
  | inverter
  | external_inverter
  deriving DecidableEq, Repr

/-- A constructed component instance: its class, the device id it was bound
to at construction, and its configuration id.  The component modules
themselves are external to the source file, so instances carry only this
identifying data; their behaviour lives in `World`. -/
structure Component where
  typ : ComponentType
  deviceId : Option Int
  configId : Option Int
  deriving DecidableEq, Repr

/-- `BatterX.configuration` of the device config dataclass. -/
structure BatterXConfiguration where
  ip_address : String
  deriving DecidableEq, Repr

/-- The `BatterX` device config dataclass. -/
structure BatterX where
  id : Option Int
  name : String
  configuration : BatterXConfiguration
  deriving DecidableEq, Repr

/-- The `Device` object: its normalized config and its `components` dict,
embedded as an insertion-ordered association list. -/
structure Device where
  device_config : BatterX
  components : List (String × Component)
  deriving DecidableEq, Repr

/-- Python-dict key membership test on the association list. -/
def hasKey {α : Type} (d : List (String × α)) (k : String) : Bool :=
  d.any (fun p => p.1 = k)

/-- Python-dict lookup (`d[k]`) on the association list. -/
def dictGet {α : Type} (d : List (String × α)) (k : String) : Option α :=
  match d with
  | [] => none
  | (k', v) :: rest => if k' = k then some v else dictGet rest k

/-- Python-dict assignment `d[k] = v`: replaces in place when the key is
present, appends otherwise (insertion order preserved). -/
def dictInsert {α : Type} (d : List (String × α)) (k : String) (v : α) :
    List (String × α) :=
  if hasKey d k then d.map (fun p => if p.1 = k then (k, v) else p)
  else d ++ [(k, v)]

/-- Python `str(id)` for the `Optional[int]` component id. -/
def idStr : Option Int → String
  | none => "None"
  | some n => toString n

/-- The keys of `Device.COMPONENT_TYPE_TO_CLASS`. -/
def COMPONENT_TYPE_TO_CLASS_tags : List String := ["bat", "counter", "inverter"]

/-- The keys of the module-level `COMPONENT_TYPE_TO_MODULE`. -/
def COMPONENT_TYPE_TO_MODULE_tags : List String :=
  ["bat", "counter", "inverter", "external_inverter"]

/-- The class a registered type tag maps to in `COMPONENT_TYPE_TO_CLASS`
(the catch-all branch is never reached for the tags the code stores). -/
def tagToType : String → ComponentType
  | "bat" => ComponentType.bat
  | "counter" => ComponentType.counter
  | "inverter" => ComponentType.inverter
  | _ => ComponentType.external_inverter

/-- The message of the `Exception` raised by `Device.add_component` for a
type tag outside `COMPONENT_TYPE_TO_CLASS`. -/
def illegalTypeMsg (t : String) : String :=
  "illegal component type " ++ t ++ ". Allowed values: " ++
    String.intercalate "," COMPONENT_TYPE_TO_CLASS_tags

/-- The message of the `Exception` raised by the module-level
`_add_component` for a type tag outside `COMPONENT_TYPE_TO_MODULE`. -/
def illegalTypeMsgLegacy (t : String) : String :=
  "illegal component type " ++ t ++ ". Allowed values: " ++
    String.intercalate "," COMPONENT_TYPE_TO_MODULE_tags

/-- Input to `Device.__init__`: either a config that
`dataclass_from_dict(BatterX, ·)` normalizes successfully, or one on which
normalization raises. -/
inductive DeviceConfigInput where
  | valid (cfg : BatterX)
  | invalid
  deriving DecidableEq, Repr

/-- `Device.__init__`.  `self.components = {}` is set first; if
`dataclass_from_dict` raises, the `except` handler evaluates
`self.device_config.name` with `self.device_config` never assigned, so the
handler itself raises `AttributeError` and the constructor fails. -/
def Device.init : DeviceConfigInput → Except PyError Device
  | DeviceConfigInput.valid cfg => Except.ok { device_config := cfg, components := [] }
  | DeviceConfigInput.invalid => Except.error (PyError.attributeError "device_config")

/-- Input to `Device.add_component`: the declared type tag, the config id,
whether `dataclass_from_dict` on the module's configuration factory
succeeds, and whether the component class constructor raises. -/
structure ComponentConfigInput where
  typ : String
  id : Option Int
  normalizes : Bool
  constructRaises : Bool
  deriving DecidableEq, Repr

/-- `Device.add_component`.  Returns the device state when the call returns
or when the exception escapes, together with the raised exception (if any).
Order of operations mirrors the source: (1) `COMPONENT_TYPE_TO_MODULE[
component_type]` (a `KeyError` for unknown tags), (2) `dataclass_from_dict`
normalization, (3) the `COMPONENT_TYPE_TO_CLASS` membership test, storing
the constructed component under `"component" + str(id)` on success and
raising the enumerating `Exception` otherwise.  The dict assignment is the
only mutation and is the final action of the success path. -/
def Device.add_component (dev : Device) (cfg : ComponentConfigInput) :
    Device × Option PyError :=
  if cfg.typ ∈ COMPONENT_TYPE_TO_MODULE_tags then
    if cfg.normalizes then
      if cfg.typ ∈ COMPONENT_TYPE_TO_CLASS_tags then
        if cfg.constructRaises then
          (dev, some (PyError.exception "component construction failed"))
        else
          ({ dev with
              components := dictInsert dev.components ("component" ++ idStr cfg.id)
                { typ := tagToType cfg.typ
                  deviceId := dev.device_config.id
                  configId := cfg.id } }, none)
      else (dev, some (PyError.exception (illegalTypeMsg cfg.typ)))
    else (dev, some (PyError.exception "dataclass_from_dict failed"))
  else (dev, some (PyError.keyError cfg.typ))

/-- `_add_component` at module level: builds a configuration from the
module's configuration factory (so it always normalizes and the class
constructors are given well-formed defaults), sets `config.id = num` and
calls `dev.add_component`; an unknown tag raises the `Exception`
enumerating `COMPONENT_TYPE_TO_MODULE`'s keys. -/
def _add_component (dev : Device) (t : String) (num : Option Int) :
    Device × Option PyError :=
  if t ∈ COMPONENT_TYPE_TO_MODULE_tags then
    Device.add_component dev { typ := t, id := num, normalizes := true, constructRaises := false }
  else (dev, some (PyError.exception (illegalTypeMsgLegacy t)))

/-- Behaviour of the external collaborators during one run: the outcome of
the HTTP fetch (`FetchError` or decoded payload), each component's
`update(payload)` outcome (`none` = success, `some e` = the exception it
raised), and — modelled from the spec, the component modules being outside
the source file — each component's pure `get_power(payload)` extraction and
the pure `get_inverter_state` mapping. -/
structure World where
  fetchResult : Except String Payload
  updResult : Component → Payload → Option PyError
  power : Component → Payload → Int
  invState : Int → Int

/-- The externally visible events of one run. -/
inductive Event where
  | enterContext (keys : List String)
  | fetch (u : String) (timeout : Nat)
  | compUpdate (key : String) (payload : Payload)
  | getPower (key : String) (payload : Payload)
  | publish (storeId : Option Int) (state : Int)
  | logWarning (msg : String)
  | exitContext (failure : Option PyError)
  deriving DecidableEq, Repr

/-- The URL of the fetch: `'http://' + ip_address + '/api.php?get=currentstate'`. -/
def url (ip : String) : String := "http://" ++ ip ++ "/api.php?get=currentstate"

/-- The warning logged by `Device.update` when no components are configured. -/
def notConfiguredMsg : String :=
  ": Es konnten keine Werte gelesen werden, da noch keine Komponenten konfiguriert wurden."

/-- The dispatch loop of `Device.update`:
`for component in self.components: self.components[component].update(resp_json)`.
There is no per-component exception handling, so a raising `update` aborts
the loop; the raised exception is returned alongside the invocation events. -/
def dispatchLoop (w : World) (p : Payload) :
    List (String × Component) → List Event × Option PyError
  | [] => ([], none)
  | (k, c) :: rest =>
    match w.updResult c p with
    | none =>
      let r := dispatchLoop w p rest
      (Event.compUpdate k p :: r.1, r.2)
    | some e => ([Event.compUpdate k p], some e)

/-- `Device.update` as the event trace of one cycle.  With components
configured it enters the `MultiComponentUpdateContext`, performs the single
HTTP GET with timeout 5, dispatches the decoded payload to every component
in turn, and the context exit captures the body's exception (fetch failure
or a component's failure); with no components it only logs the warning. -/
def Device.update (w : World) (dev : Device) : List Event :=
  if dev.components = [] then
    [Event.logWarning (dev.device_config.name ++ notConfiguredMsg)]
  else
    Event.enterContext (dev.components.map Prod.fst) ::
    match w.fetchResult with
    | Except.error e =>
      [Event.fetch (url dev.device_config.configuration.ip_address) 5,
       Event.exitContext (some (PyError.exception e))]
    | Except.ok p =>
      let r := dispatchLoop w p dev.components
      Event.fetch (url dev.device_config.configuration.ip_address) 5 ::
        (r.1 ++ [Event.exitContext r.2])

/-- The combining step of `read_legacy`, from
`state = component.get_inverter_state(power + power_ext)`: the two power
readings enter only through their sum. -/
def combine (w : World) (a b : Int) : Int := w.invState (a + b)

/-- One iteration body of `read_legacy`'s dispatch loop, for the component
the iterator yielded.  Bat and counter components get `update(resp_json)`;
an inverter gets `update(resp_json)` when `ext_inverter == 0`, and
otherwise the code adds an `"external_inverter"` component, extracts both
powers from the same payload, combines them and publishes the state to the
inverter value store keyed by `num`. -/
def legacyStep (w : World) (ext_inverter : Int) (num : Option Int) (p : Payload)
    (dev : Device) (k : String) (c : Component) :
    Device × List Event × Option PyError :=
  match c.typ with
  | ComponentType.bat =>
    (dev, [Event.compUpdate k p], w.updResult c p)
  | ComponentType.counter =>
    (dev, [Event.compUpdate k p], w.updResult c p)
  | ComponentType.inverter =>
    if ext_inverter = 0 then
      (dev, [Event.compUpdate k p], w.updResult c p)
    else
      match _add_component dev "external_inverter" (some 4) with
      | (dev', some e) => (dev', [], some e)
      | (dev', none) =>
        match dictGet dev'.components "component4" with
        | none => (dev', [Event.getPower k p], some (PyError.keyError "component4"))
        | some cExt =>
          (dev', [Event.getPower k p, Event.getPower "component4" p,
                  Event.publish num (combine w (w.power c p) (w.power cExt p))], none)
  | ComponentType.external_inverter => (dev, [], none)

/-- The `for component in dev.components.values()` loop of `read_legacy`,
iterating over the snapshot taken at loop entry.  Python dict iterators
raise `RuntimeError` on the next `next()` call after the dict changed size,
so the loop checks the current size against `n0` (the size at entry) before
each yield and at exhaustion. -/
def legacyLoop (w : World) (ext_inverter : Int) (num : Option Int) (p : Payload)
    (n0 : Nat) : Device → List (String × Component) →
    Device × List Event × Option PyError
  | dev, [] =>
    if dev.components.length ≠ n0 then
      (dev, [], some (PyError.runtimeError "dictionary changed size during iteration"))
    else (dev, [], none)
  | dev, (k, c) :: rest =>
    if dev.components.length ≠ n0 then
      (dev, [], some (PyError.runtimeError "dictionary changed size during iteration"))
    else
      match legacyStep w ext_inverter num p dev k c with
      | (dev', evs, some e) => (dev', evs, some e)
      | (dev', evs, none) =>
        match legacyLoop w ext_inverter num p n0 dev' rest with
        | (dev2, evs2, err) => (dev2, evs ++ evs2, err)

/-- `read_legacy`: builds the ad-hoc device (primary component, optional
counter and bat components), then runs one update cycle under the
`MultiComponentUpdateContext`.  Returns the event trace and the exception
that escaped `read_legacy` itself (exceptions raised before the context are
uncaught; exceptions inside the context body are captured at its exit). -/
def read_legacy (w : World) (component_type : String) (ip_address : String)
    (num : Option Int) (evu_counter : Option String) (bat_module : Option String)
    (ext_inverter : Int) : List Event × Option PyError :=
  let device_config : BatterX :=
    { id := none, name := "BatterX", configuration := { ip_address := ip_address } }
  match Device.init (DeviceConfigInput.valid device_config) with
  | Except.error e => ([], some e)
  | Except.ok dev =>
  match _add_component dev component_type num with
  | (_, some e) => ([], some e)
  | (dev1, none) =>
  match (if evu_counter = some "bezug_batterx"
         then _add_component dev1 "counter" (some 0) else (dev1, none)) with
  | (_, some e) => ([], some e)
  | (dev2, none) =>
  match (if bat_module = some "speicher_batterx"
         then _add_component dev2 "bat" (some 3) else (dev2, none)) with
  | (_, some e) => ([], some e)
  | (dev3, none) =>
    let keys := dev3.components.map Prod.fst
    match w.fetchResult with
    | Except.error e =>
      ([Event.enterContext keys, Event.fetch (url ip_address) 5,
        Event.exitContext (some (PyError.exception e))], none)
    | Except.ok p =>
      match legacyLoop w ext_inverter num p dev3.components.length dev3 dev3.components with
      | (_, evs, err) =>
        (Event.enterContext keys :: Event.fetch (url ip_address) 5 ::
          (evs ++ [Event.exitContext err]), none)

/-- Modelled from the spec: `MultiComponentUpdateContext` (outside the
source file) acquires one update slot per component key at enter and at
exit releases every slot exactly once, reporting for each the failure
captured during the cycle — or success when none was captured. -/
def cycleReports (keys : List String) (failure : Option PyError) :
    List (String × Option PyError) :=
  keys.map (fun k => (k, failure))

/-- Number of HTTP fetches in a trace. -/
def fetchCount : List Event → Nat
  | [] => 0
  | Event.fetch _ _ :: r => fetchCount r + 1
  | _ :: r => fetchCount r

/-- The `update(payload)` invocations of a trace, as (component key, payload). -/
def updateEvents : List Event → List (String × Payload)
  | [] => []
  | Event.compUpdate k p :: r => (k, p) :: updateEvents r
  | _ :: r => updateEvents r

/-- The value-store publishes of a trace, as (store id, published state). -/
def publishEvents : List Event → List (Option Int × Int)
  | [] => []
  | Event.publish i s :: r => (i, s) :: publishEvents r
  | _ :: r => publishEvents r

/-- Number of `update` invocations a given component key received. -/
def updateCountFor (tr : List Event) (k : String) : Nat :=
  (updateEvents tr).countP (fun x => x.1 = k)

/-- Does `pat` occur at the head of `m`? -/
def leadsWith : List Char → List Char → Bool
  | [], _ => true
  | _ :: _, [] => false
  | a :: as, b :: bs => a = b && leadsWith as bs

/-- Does `pat` occur as a contiguous substring of `m`? -/
def hasSub : List Char → List Char → Bool
  | [], pat => pat.isEmpty
  | c :: rest, pat => leadsWith pat (c :: rest) || hasSub rest pat

/-- The message carried by each embedded Python exception (for a
`KeyError`, `str(e)` shows only the missing key). -/
def errMessage : PyError → String
  | PyError.keyError k => k
  | PyError.exception m => m
  | PyError.attributeError n => n
  | PyError.runtimeError m => m

/-- A message enumerates the registered component types when every key of
`COMPONENT_TYPE_TO_CLASS` occurs in it. -/
@[reducible] def enumeratesAllowed (m : String) : Prop :=
  ∀ t ∈ COMPONENT_TYPE_TO_CLASS_tags, hasSub m.data t.data = true

/-! ### Concrete fixtures -/

/-- A concrete normalized device config. -/
def cfg0 : BatterX :=
  { id := none, name := "test", configuration := { ip_address := "192.168.1.5" } }

/-- A freshly constructed device: normalized config, no components. -/
def devEmpty : Device := { device_config := cfg0, components := [] }

/-- A bat component with config id 1. -/
def compBat1 : Component :=
  { typ := ComponentType.bat, deviceId := none, configId := some 1 }

/-- A counter component with config id 2. -/
def compCounter2 : Component :=
  { typ := ComponentType.counter, deviceId := none, configId := some 2 }

/-- A bat component with config id 3. -/
def compBat3 : Component :=
  { typ := ComponentType.bat, deviceId := none, configId := some 3 }

/-- A device with two components. -/
def devTwo : Device :=
  { device_config := cfg0,
    components := [("component1", compBat1), ("component2", compCounter2)] }

/-- A device with three components. -/
def devThree : Device :=
  { device_config := cfg0,
    components := [("component1", compBat1), ("component2", compCounter2),
                   ("component3", compBat3)] }

/-- A world where the fetch succeeds and every component update succeeds. -/
def wOK : World :=
  { fetchResult := Except.ok 42
    updResult := fun _ _ => none
    power := fun c _ => if c.typ = ComponentType.inverter then 500 else 70
    invState := fun s => s }

/-- A world where the fetch succeeds and exactly the component with config
id 2 raises from `update`. -/
def wFail2 : World :=
  { wOK with
    updResult := fun c _ =>
      if c.configId = some 2 then some (PyError.exception "boom") else none }

/-- A world where the fetch succeeds and exactly the component with config
id 1 raises from `update`. -/
def wFail1 : World :=
  { wOK with
    updResult := fun c _ =>
      if c.configId = some 1 then some (PyError.exception "boom") else none }

/-- A world where the fetch raises (timeout). -/
def wErr : World := { wOK with fetchResult := Except.error "timeout" }

/-! ### Helper lemmas -/

theorem hasKey_iff {α : Type} (d : List (String × α)) (k : String) :
    hasKey d k = true ↔ k ∈ d.map Prod.fst := by
  simp [hasKey, List.any_eq_true, List.mem_map, decide_eq_true_eq]

theorem hasKey_false_iff {α : Type} (d : List (String × α)) (k : String) :
    hasKey d k = false ↔ k ∉ d.map Prod.fst := by
  rw [← hasKey_iff]
  cases hasKey d k <;> simp

theorem hasKey_cons_tail {α : Type} (a : String) (b : α) (rest : List (String × α))
    (k : String) (h : hasKey ((a, b) :: rest) k = true) (hne : a ≠ k) :
    hasKey rest k = true := by
  simp only [hasKey, List.any_cons, Bool.or_eq_true, decide_eq_true_eq] at h
  rcases h with h | h
  · exact absurd h hne
  · simpa [hasKey] using h

theorem replace_eq_of_eq {α : Type} (k : String) (v : α) (p : String × α)
    (h : p.1 = k) : (if p.1 = k then (k, v) else p) = (k, v) := if_pos h

theorem replace_eq_of_ne {α : Type} (k : String) (v : α) (p : String × α)
    (h : p.1 ≠ k) : (if p.1 = k then (k, v) else p) = p := if_neg h

theorem dictGet_map_replace_self {α : Type} (k : String) (v : α) :
    ∀ d : List (String × α), hasKey d k = true →
      dictGet (d.map (fun p => if p.1 = k then (k, v) else p)) k = some v := by
  intro d
  induction d with
  | nil => intro h; simp [hasKey] at h
  | cons x rest ih =>
    intro h
    obtain ⟨k', v'⟩ := x
    rw [List.map_cons]
    by_cases hk : k' = k
    · rw [replace_eq_of_eq k v (k', v') hk]
      simp [dictGet]
    · rw [replace_eq_of_ne k v (k', v') hk]
      have h' : hasKey rest k = true := hasKey_cons_tail k' v' rest k h hk
      simp [dictGet, hk, ih h']

theorem dictGet_map_replace_other {α : Type} (k k' : String) (v : α) (hne : k' ≠ k) :
    ∀ d : List (String × α),
      dictGet (d.map (fun p => if p.1 = k then (k, v) else p)) k' = dictGet d k' := by
  intro d
  induction d with
  | nil => rfl
  | cons x rest ih =>
    obtain ⟨a, b⟩ := x
    rw [List.map_cons]
    by_cases ha : a = k
    · rw [replace_eq_of_eq k v (a, b) ha]
      have hk' : ¬ k = k' := fun hh => hne hh.symm
      have ha' : ¬ a = k' := by rw [ha]; exact hk'
      simp [dictGet, hk', ha', ih]
    · rw [replace_eq_of_ne k v (a, b) ha]
      by_cases hak : a = k' <;> simp [dictGet, hak, ih]

theorem dictGet_append_new {α : Type} (k : String) (v : α) :
    ∀ d : List (String × α), hasKey d k = false →
      dictGet (d ++ [(k, v)]) k = some v := by
  intro d
  induction d with
  | nil => intro _; simp [dictGet]
  | cons x rest ih =>
    intro h
    obtain ⟨k', v'⟩ := x
    have hk : ¬ k' = k := by
      intro he
      simp [hasKey, List.any_cons, he] at h
    simp [dictGet, hk, ih (by simpa [hasKey, List.any_cons, hk] using h)]

theorem dictGet_append_other {α : Type} (k k' : String) (v : α) (hne : k' ≠ k) :
    ∀ d : List (String × α), dictGet (d ++ [(k, v)]) k' = dictGet d k' := by
  intro d
  induction d with
  | nil => simp [dictGet, Ne.symm hne]
  | cons x rest ih =>
    obtain ⟨a, b⟩ := x
    by_cases ha : a = k' <;> simp [dictGet, ha, ih]

theorem dictGet_dictInsert_self {α : Type} (d : List (String × α)) (k : String) (v : α) :
    dictGet (dictInsert d k v) k = some v := by
  unfold dictInsert
  by_cases h : hasKey d k = true
  · simp [h, dictGet_map_replace_self k v d h]
  · simp only [Bool.not_eq_true] at h
    simp [h, dictGet_append_new k v d h]

theorem dictGet_dictInsert_other {α : Type} (d : List (String × α)) (k k' : String)
    (v : α) (hne : k' ≠ k) : dictGet (dictInsert d k v) k' = dictGet d k' := by
  unfold dictInsert
  by_cases h : hasKey d k = true
  · simp [h, dictGet_map_replace_other k k' v hne d]
  · simp only [Bool.not_eq_true] at h
    simp [h, dictGet_append_other k k' v hne d]

theorem dictInsert_length_replace {α : Type} (d : List (String × α)) (k : String)
    (v : α) (h : hasKey d k = true) : (dictInsert d k v).length = d.length := by
  simp [dictInsert, h]

theorem dictInsert_length_new {α : Type} (d : List (String × α)) (k : String)
    (v : α) (h : hasKey d k = false) : (dictInsert d k v).length = d.length + 1 := by
  simp [dictInsert, h]

theorem dictInsert_keys_nodup {α : Type} (d : List (String × α)) (k : String) (v : α)
    (h : (d.map Prod.fst).Nodup) : ((dictInsert d k v).map Prod.fst).Nodup := by
  unfold dictInsert
  by_cases hk : hasKey d k
  · have hkeys : (d.map (fun p => if p.1 = k then (k, v) else p)).map Prod.fst =
        d.map Prod.fst := by
      rw [List.map_map]
      apply List.map_congr_left
      intro p _
      by_cases hp : p.1 = k <;> simp [hp, Function.comp]
    simpa [hk, hkeys] using h
  · rw [if_neg hk]
    simp only [Bool.not_eq_true] at hk
    have hnot : k ∉ d.map Prod.fst := (hasKey_false_iff d k).mp hk
    rw [List.map_append]
    exact List.Nodup.append h (List.nodup_singleton k)
      (by intro a ha hb; simp at hb; subst hb; exact hnot ha)

theorem updateEvents_append (l1 l2 : List Event) :
    updateEvents (l1 ++ l2) = updateEvents l1 ++ updateEvents l2 := by
  induction l1 with
  | nil => rfl
  | cons e r ih => cases e <;> simp [updateEvents, ih]

theorem fetchCount_append (l1 l2 : List Event) :
    fetchCount (l1 ++ l2) = fetchCount l1 + fetchCount l2 := by
  induction l1 with
  | nil => simp [fetchCount]
  | cons e r ih =>
    cases e
    all_goals simp [fetchCount, ih]
    all_goals omega

theorem updateEvents_map_compUpdate (l : List (String × Component)) (p : Payload) :
    updateEvents (l.map (fun x => Event.compUpdate x.1 p)) =
      l.map (fun x => (x.1, p)) := by
  induction l with
  | nil => rfl
  | cons x r ih => simp [updateEvents, ih]

theorem dispatchLoop_ok (w : World) (p : Payload) :
    ∀ l : List (String × Component), (∀ x ∈ l, w.updResult x.2 p = none) →
      dispatchLoop w p l = (l.map (fun x => Event.compUpdate x.1 p), none) := by
  intro l
  induction l with
  | nil => intro _; rfl
  | cons x r ih =>
    intro h
    obtain ⟨k, c⟩ := x
    have hx : w.updResult c p = none := h (k, c) (List.mem_cons_self _ _)
    have hr := ih (fun y hy => h y (List.mem_cons_of_mem _ hy))
    simp [dispatchLoop, hx, hr]

theorem dispatchLoop_prefail (w : World) (p : Payload) (k : String) (c : Component)
    (e : PyError) (post : List (String × Component)) :
    ∀ pre : List (String × Component), (∀ x ∈ pre, w.updResult x.2 p = none) →
      w.updResult c p = some e →
      dispatchLoop w p (pre ++ (k, c) :: post) =
        (pre.map (fun x => Event.compUpdate x.1 p) ++ [Event.compUpdate k p], some e) := by
  intro pre
  induction pre with
  | nil =>
    intro _ hc
    simp [dispatchLoop, hc]
  | cons x r ih =>
    intro h hc
    obtain ⟨k', c'⟩ := x
    have hx : w.updResult c' p = none := h (k', c') (List.mem_cons_self _ _)
    have hr := ih (fun y hy => h y (List.mem_cons_of_mem _ hy)) hc
    simp [dispatchLoop, hx, hr]

theorem dispatchLoop_no_fetch (w : World) (p : Payload) :
    ∀ l : List (String × Component), fetchCount (dispatchLoop w p l).1 = 0 := by
  intro l
  induction l with
  | nil => rfl
  | cons x r ih =>
    obtain ⟨k, c⟩ := x
    cases h : w.updResult c p <;> simp [dispatchLoop, h, fetchCount, ih]

/-! ### Claim theorems -/

/-- Claim C5: for every Device whose component collection is empty,
`Device.update` performs zero fetch calls and zero component updates; it
only emits the "not yet configured" diagnostic and returns without
error. -/
theorem update_empty_no_fetch (w : World) (dev : Device)
    (h : dev.components = []) :
    Device.update w dev =
      [Event.logWarning (dev.device_config.name ++ notConfiguredMsg)] ∧
    fetchCount (Device.update w dev) = 0 ∧
    updateEvents (Device.update w dev) = [] := by
  have key : Device.update w dev =
      [Event.logWarning (dev.device_config.name ++ notConfiguredMsg)] := by
    simp [Device.update, h]
  exact ⟨key, by simp [key, fetchCount], by simp [key, updateEvents]⟩

/-- Witness for C5 at a concrete empty device. -/
theorem update_empty_no_fetch_w :
    Device.update wOK devEmpty =
      [Event.logWarning (devEmpty.device_config.name ++ notConfiguredMsg)] ∧
    fetchCount (Device.update wOK devEmpty) = 0 ∧
    updateEvents (Device.update wOK devEmpty) = [] :=
  update_empty_no_fetch wOK devEmpty rfl

/-- Claim C8: the combining step
`state = component.get_inverter_state(power + power_ext)` is a pure
function of the two readings, and because they enter only through their
sum it is symmetric in the two readings (determinism is immediate: the
embedding is a pure function of its arguments). -/
theorem combine_commutes (w : World) (a b : Int) : combine w a b = combine w b a := by
  unfold combine
  rw [Int.add_comm]

/-- Claim C10: `Device.__init__` never completes without a normalized
device config — if `dataclass_from_dict` raises, the `except` handler
itself raises (`self.device_config` is unset there), so every successfully
constructed Device has a normalized config and an empty component
collection. -/
theorem device_init_normalized (inp : DeviceConfigInput) (dev : Device)
    (h : Device.init inp = Except.ok dev) :
    inp = DeviceConfigInput.valid dev.device_config ∧ dev.components = [] := by
  cases inp with
  | valid cfg =>
    have h' : ({ device_config := cfg, components := [] } : Device) = dev := by
      simpa [Device.init] using h
    subst h'
    exact ⟨rfl, rfl⟩
  | invalid => simp [Device.init] at h

/-- Witness for C10 at a concrete valid config. -/
theorem device_init_normalized_w :
    DeviceConfigInput.valid cfg0 = DeviceConfigInput.valid devEmpty.device_config ∧
    devEmpty.components = [] :=
  device_init_normalized (DeviceConfigInput.valid cfg0) devEmpty rfl

/-- Claim C9: `Device.add_component` is atomic — either it returns
normally having stored exactly one component entry under the key
`"component" + str(id)` (possibly replacing the prior entry at that key,
all other keys untouched), or it raises and the component collection is
exactly as before the call. -/
theorem add_component_atomic (dev : Device) (cfg : ComponentConfigInput) :
    ((Device.add_component dev cfg).2 ≠ none → (Device.add_component dev cfg).1 = dev) ∧
    ((Device.add_component dev cfg).2 = none →
      (Device.add_component dev cfg).1.device_config = dev.device_config ∧
      (Device.add_component dev cfg).1.components =
        dictInsert dev.components ("component" ++ idStr cfg.id)
          { typ := tagToType cfg.typ, deviceId := dev.device_config.id,
            configId := cfg.id } ∧
      dictGet (Device.add_component dev cfg).1.components ("component" ++ idStr cfg.id) =
        some { typ := tagToType cfg.typ, deviceId := dev.device_config.id,
               configId := cfg.id } ∧
      (∀ k, k ≠ "component" ++ idStr cfg.id →
        dictGet (Device.add_component dev cfg).1.components k =
          dictGet dev.components k)) := by
  unfold Device.add_component
  split_ifs with h1 h2 h3 h4
  · exact ⟨fun _ => rfl, fun hc => absurd hc (by simp)⟩
  · refine ⟨fun hc => absurd rfl hc, fun _ => ⟨rfl, rfl, dictGet_dictInsert_self _ _ _, ?_⟩⟩
    intro k hk
    exact dictGet_dictInsert_other _ _ _ _ hk
  · exact ⟨fun _ => rfl, fun hc => absurd hc (by simp)⟩
  · exact ⟨fun _ => rfl, fun hc => absurd hc (by simp)⟩
  · exact ⟨fun _ => rfl, fun hc => absurd hc (by simp)⟩

/-- Witness for C9: the error path leaves the collection untouched, the
success path stores the entry under its key. -/
theorem add_component_atomic_w :
    (Device.add_component devEmpty
      { typ := "foo", id := some 1, normalizes := true, constructRaises := false }).1 =
      devEmpty ∧
    dictGet (Device.add_component devEmpty
      { typ := "bat", id := some 1, normalizes := true, constructRaises := false
        }).1.components ("component" ++ idStr (some 1)) =
      some { typ := tagToType "bat", deviceId := devEmpty.device_config.id,
             configId := some 1 } :=
  ⟨(add_component_atomic devEmpty
      { typ := "foo", id := some 1, normalizes := true, constructRaises := false }).1
      (by decide),
   ((add_component_atomic devEmpty
      { typ := "bat", id := some 1, normalizes := true, constructRaises := false }).2
      (by decide)).2.2.1⟩

/-- Claim C4: when the fetch raises, zero `update(payload)` calls are made
on any component (no dispatch ever happens before a successful fetch
within the cycle), and every acquired per-component slot is released and
reported as failed with the fetch error. -/
theorem update_fetch_error_reports (w : World) (dev : Device) (e : String)
    (hne : dev.components ≠ []) (hf : w.fetchResult = Except.error e) :
    Device.update w dev =
      [Event.enterContext (dev.components.map Prod.fst),
       Event.fetch (url dev.device_config.configuration.ip_address) 5,
       Event.exitContext (some (PyError.exception e))] ∧
    updateEvents (Device.update w dev) = [] ∧
    fetchCount (Device.update w dev) = 1 ∧
    cycleReports (dev.components.map Prod.fst) (some (PyError.exception e)) =
      dev.components.map (fun x => (x.1, some (PyError.exception e))) ∧
    (cycleReports (dev.components.map Prod.fst)
      (some (PyError.exception e))).length = dev.components.length := by
  have key : Device.update w dev =
      [Event.enterContext (dev.components.map Prod.fst),
       Event.fetch (url dev.device_config.configuration.ip_address) 5,
       Event.exitContext (some (PyError.exception e))] := by
    unfold Device.update
    rw [if_neg hne, hf]
  refine ⟨key, ?_, ?_, ?_, ?_⟩
  · simp [key, updateEvents]
  · simp [key, fetchCount]
  · simp [cycleReports, List.map_map, Function.comp]
  · simp [cycleReports]

/-- Witness for C4 at a concrete device and a timed-out fetch. -/
theorem update_fetch_error_reports_w :
    Device.update wErr devTwo =
      [Event.enterContext (devTwo.components.map Prod.fst),
       Event.fetch (url devTwo.device_config.configuration.ip_address) 5,
       Event.exitContext (some (PyError.exception "timeout"))] ∧
    updateEvents (Device.update wErr devTwo) = [] ∧
    fetchCount (Device.update wErr devTwo) = 1 ∧
    cycleReports (devTwo.components.map Prod.fst)
        (some (PyError.exception "timeout")) =
      devTwo.components.map (fun x => (x.1, some (PyError.exception "timeout"))) ∧
    (cycleReports (devTwo.components.map Prod.fst)
      (some (PyError.exception "timeout"))).length = devTwo.components.length :=
  update_fetch_error_reports wErr devTwo "timeout" (by decide) rfl

/-- Claim C2 counterexample: with two components where the first raises
from `update`, the fetch succeeded yet the second component is never
invoked, so "invokes `update(payload)` exactly once on every component"
fails as stated. -/
theorem update_dispatch_all_cex :
    fetchCount (Device.update wFail1 devTwo) = 1 ∧
    updateEvents (Device.update wFail1 devTwo) = [("component1", 42)] ∧
    ¬ (∀ kc ∈ devTwo.components,
        updateCountFor (Device.update wFail1 devTwo) kc.1 = 1) := by
  decide

/-- Claim C2 (amended): one call to `Device.update` with a non-empty
component collection performs exactly one fetch (whatever its outcome),
and on a successful fetch on which no component's `update` raises, every
component is invoked exactly once in collection order with the identical
payload. -/
theorem update_single_fetch_dispatch_all (w : World) (dev : Device)
    (hne : dev.components ≠ []) :
    fetchCount (Device.update w dev) = 1 ∧
    (∀ p : Payload, w.fetchResult = Except.ok p →
      (∀ x ∈ dev.components, w.updResult x.2 p = none) →
      Device.update w dev =
        Event.enterContext (dev.components.map Prod.fst) ::
        Event.fetch (url dev.device_config.configuration.ip_address) 5 ::
        (dev.components.map (fun x => Event.compUpdate x.1 p) ++
          [Event.exitContext none]) ∧
      updateEvents (Device.update w dev) =
        dev.components.map (fun x => (x.1, p))) := by
  constructor
  · cases hf : w.fetchResult with
    | error e =>
      have key : Device.update w dev =
          [Event.enterContext (dev.components.map Prod.fst),
           Event.fetch (url dev.device_config.configuration.ip_address) 5,
           Event.exitContext (some (PyError.exception e))] := by
        unfold Device.update
        rw [if_neg hne, hf]
      simp [key, fetchCount]
    | ok p =>
      have key : Device.update w dev =
          Event.enterContext (dev.components.map Prod.fst) ::
          Event.fetch (url dev.device_config.configuration.ip_address) 5 ::
          ((dispatchLoop w p dev.components).1 ++
            [Event.exitContext (dispatchLoop w p dev.components).2]) := by
        unfold Device.update
        rw [if_neg hne, hf]
      rw [key]
      simp [fetchCount, fetchCount_append, dispatchLoop_no_fetch]
  · intro p hf hall
    have hd := dispatchLoop_ok w p dev.components hall
    have key : Device.update w dev =
        Event.enterContext (dev.components.map Prod.fst) ::
        Event.fetch (url dev.device_config.configuration.ip_address) 5 ::
        ((dispatchLoop w p dev.components).1 ++
          [Event.exitContext (dispatchLoop w p dev.components).2]) := by
      unfold Device.update
      rw [if_neg hne, hf]
    constructor
    · rw [key, hd]
    · rw [key, hd]
      simp [updateEvents, updateEvents_append, updateEvents_map_compUpdate]

/-- Witness for the amended C2 at a concrete two-component device where
everything succeeds. -/
theorem update_single_fetch_dispatch_all_w :
    fetchCount (Device.update wOK devTwo) = 1 ∧
    Device.update wOK devTwo =
      Event.enterContext (devTwo.components.map Prod.fst) ::
      Event.fetch (url devTwo.device_config.configuration.ip_address) 5 ::
      (devTwo.components.map (fun x => Event.compUpdate x.1 42) ++
        [Event.exitContext none]) ∧
    updateEvents (Device.update wOK devTwo) =
      devTwo.components.map (fun x => (x.1, 42)) :=
  ⟨(update_single_fetch_dispatch_all wOK devTwo (by decide)).1,
   ((update_single_fetch_dispatch_all wOK devTwo (by decide)).2 42 rfl (by decide)).1,
   ((update_single_fetch_dispatch_all wOK devTwo (by decide)).2 42 rfl (by decide)).2⟩

/-- Claim C1 counterexample: three components where the middle one raises.
The first succeeding component is updated, the failing one is invoked and
raises, and the third — a succeeding component — never receives the
payload, so the dispatch to siblings is aborted, contrary to the claim. -/
theorem update_failure_isolation_cex :
    wFail2.updResult compBat1 42 = none ∧
    wFail2.updResult compBat3 42 = none ∧
    wFail2.updResult compCounter2 42 = some (PyError.exception "boom") ∧
    updateEvents (Device.update wFail2 devThree) =
      [("component1", 42), ("component2", 42)] ∧
    updateCountFor (Device.update wFail2 devThree) "component3" = 0 ∧
    ¬ (∀ kc ∈ devThree.components, wFail2.updResult kc.2 42 = none →
        (kc.1, 42) ∈ updateEvents (Device.update wFail2 devThree)) := by
  decide

/-- Claim C1 (amended): in a cycle whose fetch succeeded, the components
preceding the first failing one receive the payload and are updated, the
failing component's `update` is invoked and its exception aborts the
dispatch loop, so the components after it are not invoked; the failure is
captured at the context exit. -/
theorem update_failure_aborts_dispatch (w : World) (dev : Device) (p : Payload)
    (pre post : List (String × Component)) (k : String) (c : Component) (e : PyError)
    (hcomps : dev.components = pre ++ (k, c) :: post)
    (hf : w.fetchResult = Except.ok p)
    (hpre : ∀ x ∈ pre, w.updResult x.2 p = none)
    (hc : w.updResult c p = some e) :
    Device.update w dev =
      Event.enterContext (dev.components.map Prod.fst) ::
      Event.fetch (url dev.device_config.configuration.ip_address) 5 ::
      ((pre.map (fun x => Event.compUpdate x.1 p) ++ [Event.compUpdate k p]) ++
        [Event.exitContext (some e)]) ∧
    updateEvents (Device.update w dev) =
      pre.map (fun x => (x.1, p)) ++ [(k, p)] := by
  have hne : dev.components ≠ [] := by
    rw [hcomps]
    simp
  have key : Device.update w dev =
      Event.enterContext (dev.components.map Prod.fst) ::
      Event.fetch (url dev.device_config.configuration.ip_address) 5 ::
      ((dispatchLoop w p dev.components).1 ++
        [Event.exitContext (dispatchLoop w p dev.components).2]) := by
    unfold Device.update
    rw [if_neg hne, hf]
  have hdc : dispatchLoop w p dev.components =
      (pre.map (fun x => Event.compUpdate x.1 p) ++ [Event.compUpdate k p], some e) := by
    rw [hcomps]
    exact dispatchLoop_prefail w p k c e post pre hpre hc
  constructor
  · rw [key, hdc]
  · rw [key, hdc]
    simp [updateEvents, updateEvents_append, updateEvents_map_compUpdate]

/-- Witness for the amended C1 at the three-component device with the
middle component failing. -/
theorem update_failure_aborts_dispatch_w :
    Device.update wFail2 devThree =
      Event.enterContext (devThree.components.map Prod.fst) ::
      Event.fetch (url devThree.device_config.configuration.ip_address) 5 ::
      (([("component1", compBat1)].map (fun x => Event.compUpdate x.1 42) ++
        [Event.compUpdate "component2" 42]) ++
        [Event.exitContext (some (PyError.exception "boom"))]) ∧
    updateEvents (Device.update wFail2 devThree) =
      [("component1", compBat1)].map (fun x => (x.1, 42)) ++ [("component2", 42)] :=
  update_failure_aborts_dispatch wFail2 devThree 42
    [("component1", compBat1)] [("component3", compBat3)] "component2" compCounter2
    (PyError.exception "boom") rfl rfl (by decide) (by decide)

/-- A component configuration whose type tag is in neither registry. -/
def cfgFoo : ComponentConfigInput :=
  { typ := "foo", id := some 1, normalizes := true, constructRaises := false }

/-- The external-inverter configuration `_add_component` builds in the
legacy path. -/
def cfgExt : ComponentConfigInput :=
  { typ := "external_inverter", id := some 4, normalizes := true,
    constructRaises := false }

/-- Claim C3 counterexample: for the unregistered tag "foo" the raised
error is a `KeyError` from `COMPONENT_TYPE_TO_MODULE[component_type]`
whose message does not enumerate the registered tags (the collection is
still left unchanged). -/
theorem add_component_unknown_tag_cex :
    (Device.add_component devEmpty cfgFoo).2 = some (PyError.keyError "foo") ∧
    (Device.add_component devEmpty cfgFoo).1 = devEmpty ∧
    ¬ enumeratesAllowed (errMessage (PyError.keyError "foo")) := by
  decide

/-- Claim C3 (amended): an unregistered type never mutates the component
collection and always raises, but the error message enumerates the
registered tags only when the tag is a key of `COMPONENT_TYPE_TO_MODULE`
(i.e. "external_inverter") and the config normalizes; a tag unknown to
both mappings raises a bare `KeyError` instead. -/
theorem add_component_unknown_tag (dev : Device) (cfg : ComponentConfigInput)
    (h : cfg.typ ∉ COMPONENT_TYPE_TO_CLASS_tags) :
    (Device.add_component dev cfg).1 = dev ∧
    (Device.add_component dev cfg).2 ≠ none ∧
    (cfg.typ ∉ COMPONENT_TYPE_TO_MODULE_tags →
      (Device.add_component dev cfg).2 = some (PyError.keyError cfg.typ)) ∧
    (cfg.typ ∈ COMPONENT_TYPE_TO_MODULE_tags → cfg.normalizes = true →
      (Device.add_component dev cfg).2 =
        some (PyError.exception (illegalTypeMsg cfg.typ)) ∧
      enumeratesAllowed (illegalTypeMsg cfg.typ)) := by
  have henum : cfg.typ ∈ COMPONENT_TYPE_TO_MODULE_tags →
      enumeratesAllowed (illegalTypeMsg cfg.typ) := by
    intro hm
    have ht : cfg.typ = "external_inverter" := by
      simp only [COMPONENT_TYPE_TO_MODULE_tags, List.mem_cons,
        List.mem_singleton] at hm
      simp only [COMPONENT_TYPE_TO_CLASS_tags, List.mem_cons,
        List.mem_singleton] at h
      tauto
    rw [ht]
    decide
  unfold Device.add_component
  split_ifs with h1 h2
  · exact ⟨rfl, by simp, fun hnm => absurd h1 hnm, fun hm _ => ⟨rfl, henum h1⟩⟩
  · exact ⟨rfl, by simp, fun hnm => absurd h1 hnm, fun _ hn => absurd hn h2⟩
  · exact ⟨rfl, by simp, fun _ => rfl, fun hm => absurd hm h1⟩

/-- Witness for the amended C3: the "external_inverter" tag raises the
enumerating exception, the "foo" tag raises the bare `KeyError`. -/
theorem add_component_unknown_tag_w :
    (Device.add_component devEmpty cfgExt).2 =
      some (PyError.exception (illegalTypeMsg "external_inverter")) ∧
    enumeratesAllowed (illegalTypeMsg "external_inverter") ∧
    (Device.add_component devEmpty cfgFoo).2 = some (PyError.keyError "foo") :=
  ⟨((add_component_unknown_tag devEmpty cfgExt (by decide)).2.2.2 (by decide) rfl).1,
   ((add_component_unknown_tag devEmpty cfgExt (by decide)).2.2.2 (by decide) rfl).2,
   (add_component_unknown_tag devEmpty cfgFoo (by decide)).2.2.1 (by decide)⟩

/-- A bat configuration with id 1. -/
def cfgBatId1 : ComponentConfigInput :=
  { typ := "bat", id := some 1, normalizes := true, constructRaises := false }

/-- A counter configuration with the same id 1 but a different type. -/
def cfgCounterId1 : ComponentConfigInput :=
  { typ := "counter", id := some 1, normalizes := true, constructRaises := false }

/-- The device after adding a bat with id 1. -/
def devBat1 : Device := (Device.add_component devEmpty cfgBatId1).1

/-- The device after adding a bat with id 1 and then a counter with id 1. -/
def devBatThenCounter : Device :=
  (Device.add_component devBat1 cfgCounterId1).1

/-- Claim C6 counterexample: keys are per id only — adding a counter with
id 1 after a bat with id 1 replaces the bat instead of coexisting with it,
so the collection is not keyed per (type+id). -/
theorem component_key_per_id_cex :
    devBatThenCounter.components =
      [("component1",
        { typ := ComponentType.counter, deviceId := none, configId := some 1 })] ∧
    ¬ ∃ x ∈ devBatThenCounter.components, x.2.typ = ComponentType.bat := by
  decide

/-- Claim C6 (amended): the component collection is keyed per id only
(key `"component" + str(id)`, the type is not part of the key), re-adding
any configuration with the same id — same type or not — replaces the prior
entry rather than duplicating it, other keys are untouched, and key
uniqueness is preserved. -/
theorem component_key_per_id (dev : Device) (cfg : ComponentConfigInput) (dev2 : Device)
    (h : Device.add_component dev cfg = (dev2, none)) :
    dictGet dev2.components ("component" ++ idStr cfg.id) =
      some { typ := tagToType cfg.typ, deviceId := dev.device_config.id,
             configId := cfg.id } ∧
    (∀ k, k ≠ "component" ++ idStr cfg.id →
      dictGet dev2.components k = dictGet dev.components k) ∧
    (hasKey dev.components ("component" ++ idStr cfg.id) = true →
      dev2.components.length = dev.components.length) ∧
    (hasKey dev.components ("component" ++ idStr cfg.id) = false →
      dev2.components.length = dev.components.length + 1) ∧
    ((dev.components.map Prod.fst).Nodup → (dev2.components.map Prod.fst).Nodup) := by
  have hcomps : dev2.components =
      dictInsert dev.components ("component" ++ idStr cfg.id)
        { typ := tagToType cfg.typ, deviceId := dev.device_config.id,
          configId := cfg.id } := by
    unfold Device.add_component at h
    split_ifs at h with h1 h2 h3 h4
    · simp at h
    · rw [Prod.mk.injEq] at h
      rw [← h.1]
    · simp at h
    · simp at h
    · simp at h
  refine ⟨?_, ?_, ?_, ?_, ?_⟩
  · rw [hcomps]
    exact dictGet_dictInsert_self _ _ _
  · intro k hk
    rw [hcomps]
    exact dictGet_dictInsert_other _ _ _ _ hk
  · intro hh
    rw [hcomps]
    exact dictInsert_length_replace _ _ _ hh
  · intro hh
    rw [hcomps]
    exact dictInsert_length_new _ _ _ hh
  · intro hh
    rw [hcomps]
    exact dictInsert_keys_nodup _ _ _ hh

/-- Witness for the amended C6: a fresh id appends one entry; re-adding
id 1 with a different type keeps the collection length (replacement). -/
theorem component_key_per_id_w :
    dictGet devBat1.components ("component" ++ idStr (some 1)) =
      some { typ := tagToType "bat", deviceId := devEmpty.device_config.id,
             configId := some 1 } ∧
    devBat1.components.length = devEmpty.components.length + 1 ∧
    devBatThenCounter.components.length = devBat1.components.length :=
  ⟨(component_key_per_id devEmpty cfgBatId1 devBat1 (by decide)).1,
   (component_key_per_id devEmpty cfgBatId1 devBat1 (by decide)).2.2.2.1 (by decide),
   (component_key_per_id devBat1 cfgCounterId1 devBatThenCounter
     (by decide)).2.2.1 (by decide)⟩

/-- Claim C7 counterexample: the external-inverter run performs exactly
one fetch (not two) and publishes nothing — the attempt to add the
`"external_inverter"` component raises inside the loop. -/
theorem read_legacy_two_fetch_cex :
    fetchCount (read_legacy wOK "inverter" "192.168.1.5" (some 5) none none 1).1 = 1 ∧
    fetchCount (read_legacy wOK "inverter" "192.168.1.5" (some 5) none none 1).1 ≠ 2 ∧
    publishEvents (read_legacy wOK "inverter" "192.168.1.5" (some 5) none none 1).1 = [] := by
  decide

/-- Claim C7 (amended): `read_legacy` with an inverter primary component
and `ext_inverter ≠ 0` performs exactly one fetch; the attempt to add the
`"external_inverter"` component raises `illegal component type` (that tag
is not in `COMPONENT_TYPE_TO_CLASS`), the exception is captured at the
context exit, and no power extraction, combination or publish occurs. -/
theorem read_legacy_ext_inverter_run (w : World) (ip : String) (num : Option Int)
    (ext : Int) (p : Payload) (hext : ext ≠ 0) (hf : w.fetchResult = Except.ok p) :
    read_legacy w "inverter" ip num none none ext =
      ([Event.enterContext ["component" ++ idStr num],
        Event.fetch (url ip) 5,
        Event.exitContext
          (some (PyError.exception (illegalTypeMsg "external_inverter")))], none) ∧
    fetchCount (read_legacy w "inverter" ip num none none ext).1 = 1 ∧
    publishEvents (read_legacy w "inverter" ip num none none ext).1 = [] := by
  have main : read_legacy w "inverter" ip num none none ext =
      ([Event.enterContext ["component" ++ idStr num],
        Event.fetch (url ip) 5,
        Event.exitContext
          (some (PyError.exception (illegalTypeMsg "external_inverter")))], none) := by
    unfold read_legacy
    rw [hf]
    simp [Device.init, _add_component, Device.add_component, dictInsert, hasKey,
      COMPONENT_TYPE_TO_MODULE_tags, COMPONENT_TYPE_TO_CLASS_tags,
      legacyLoop, legacyStep, tagToType, hext]
  refine ⟨main, ?_, ?_⟩
  · rw [main]
    rfl
  · rw [main]
    rfl

/-- Witness for the amended C7 at concrete inputs. -/
theorem read_legacy_ext_inverter_run_w :
    read_legacy wOK "inverter" "10.0.0.7" (some 3) none none 2 =
      ([Event.enterContext ["component" ++ idStr (some 3)],
        Event.fetch (url "10.0.0.7") 5,
        Event.exitContext
          (some (PyError.exception (illegalTypeMsg "external_inverter")))], none) ∧
    fetchCount (read_legacy wOK "inverter" "10.0.0.7" (some 3) none none 2).1 = 1 ∧
    publishEvents (read_legacy wOK "inverter" "10.0.0.7" (some 3) none none 2).1 = [] :=
  read_legacy_ext_inverter_run wOK "10.0.0.7" (some 3) 2 42 (by decide) rfl

end BatterXDev
